import Mathlib

/-!
Verification development for the veridical-sensor-sim cueing and material-veto
pipeline.  The definitions below are shallow embeddings of the Python source:

* `classify_target` embeds `PolarimetrySimulator.classify_target` from
  `polarimetric-eo/src/simulations/simulate_polarimetry.py` (lines 219-285),
  with DoLP values as exact rationals and masks as boolean lists.
* `roiShape` embeds the output-shape computation of
  `ROIGatingModule.extract_roi` from `polarimetric-eo/src/sensors/roi_gating.py`
  (lines 84-169), including Python slice semantics for the clamped bounds.
* `enu_to_aer`, `geodetic_to_enu`, `calculate_angular_uncertainty` and
  `generate_spiral_search_pattern` embed the corresponding methods of
  `SlewToCueController` in `thermal-lwir/src/control/slew_to_cue.py`,
  over exact reals with `Complex.arg` playing the role of `np.arctan2`.
-/

namespace SensorSim

/-! ## MaterialClassifier: simulate_polarimetry.py, classify_target -/

/-- Material label returned by the classifier. -/
inductive Classification where
  | DRONE
  | BIRD
  | UNKNOWN
deriving DecidableEq, Repr

/-- Confidence level returned by the classifier. -/
inductive Confidence where
  | HIGH
  | MEDIUM
  | LOW
deriving DecidableEq, Repr

/-- Veto verdict returned by the classifier. -/
inductive Veto where
  | CONFIRM
  | REJECT
  | REQUIRE_FUSION
  | INSUFFICIENT_CONTRAST
deriving DecidableEq, Repr

/-- Thresholds set in `PolarimetrySimulator.__init__` (lines 66-73). -/
def DRONE_DOLP_HIGH : ℚ := 10 / 100

def DRONE_DOLP_MED : ℚ := 8 / 100

def AMBIGUOUS_DOLP : ℚ := 5 / 100

def BIRD_DOLP_MED : ℚ := 3 / 100

def MIN_CONTRAST : ℚ := 2

/-- Result record built by `classify_target` (label fields plus the numeric
metrics it reports). -/
structure ClassifyResult where
  classification : Classification
  confidence : Confidence
  veto_decision : Veto
  dolp_target_mean : ℚ
  dolp_background_mean : ℚ
  contrast : ℚ
deriving DecidableEq, Repr

/-- Numpy boolean-mask indexing `dolp_map[mask]` on a flattened map. -/
def maskedValues (vals : List ℚ) (mask : List Bool) : List ℚ :=
  (List.zip vals mask).filterMap (fun p => if p.2 then some p.1 else none)

/-- Mean of a list of rationals, `np.mean`.  (On an empty selection numpy
returns NaN; in ℚ the expression `sum / 0` evaluates to `0`.  Every claim
below concerns nonempty selections or is insensitive to this value.) -/
def npMean (l : List ℚ) : ℚ := l.sum / (l.length : ℚ)

/-- Shallow embedding of `classify_target` (lines 219-285): compute the mean
DoLP over each mask, the guarded contrast quotient, and run the decision
tree in source order. -/
def classify_target (dolp_map : List ℚ) (target_mask background_mask : List Bool) :
    ClassifyResult :=
  let target_dolp_mean := npMean (maskedValues dolp_map target_mask)
  let background_dolp_mean := npMean (maskedValues dolp_map background_mask)
  let contrast :=
    if background_dolp_mean > 0 then target_dolp_mean / background_dolp_mean else 0
  if contrast < MIN_CONTRAST then
    ⟨.UNKNOWN, .LOW, .INSUFFICIENT_CONTRAST,
      target_dolp_mean, background_dolp_mean, contrast⟩
  else if target_dolp_mean > DRONE_DOLP_HIGH then
    ⟨.DRONE, .HIGH, .CONFIRM, target_dolp_mean, background_dolp_mean, contrast⟩
  else if target_dolp_mean ≥ DRONE_DOLP_MED then
    ⟨.DRONE, .MEDIUM, .CONFIRM, target_dolp_mean, background_dolp_mean, contrast⟩
  else if target_dolp_mean ≥ AMBIGUOUS_DOLP then
    ⟨.UNKNOWN, .LOW, .REQUIRE_FUSION, target_dolp_mean, background_dolp_mean, contrast⟩
  else if target_dolp_mean ≥ BIRD_DOLP_MED then
    ⟨.BIRD, .MEDIUM, .REJECT, target_dolp_mean, background_dolp_mean, contrast⟩
  else
    ⟨.BIRD, .HIGH, .REJECT, target_dolp_mean, background_dolp_mean, contrast⟩

/-- Decision tree written from the specification text (spec section 4.5): the
contrast quotient is `0` when `mean_background ≤ 0`, then the six branches
with thresholds `2.0`, `0.10`, `0.08`, `0.05`, `0.03` in that order.  Used to
compare the source decision tree with the specified one. -/
def specDecision (mean_target mean_background : ℚ) : ClassifyResult :=
  let cr := if mean_background ≤ 0 then 0 else mean_target / mean_background
  if cr < 2 then
    ⟨.UNKNOWN, .LOW, .INSUFFICIENT_CONTRAST, mean_target, mean_background, cr⟩
  else if mean_target > 10 / 100 then
    ⟨.DRONE, .HIGH, .CONFIRM, mean_target, mean_background, cr⟩
  else if mean_target ≥ 8 / 100 then
    ⟨.DRONE, .MEDIUM, .CONFIRM, mean_target, mean_background, cr⟩
  else if mean_target ≥ 5 / 100 then
    ⟨.UNKNOWN, .LOW, .REQUIRE_FUSION, mean_target, mean_background, cr⟩
  else if mean_target ≥ 3 / 100 then
    ⟨.BIRD, .MEDIUM, .REJECT, mean_target, mean_background, cr⟩
  else
    ⟨.BIRD, .HIGH, .REJECT, mean_target, mean_background, cr⟩

/-- The source classifier agrees with the spec-side decision tree on every
input: the only textual difference is the guard `background > 0` versus
`background ≤ 0`, which are complementary. -/
lemma classify_target_eq_spec (d : List ℚ) (tm bm : List Bool) :
    classify_target d tm bm =
      specDecision (npMean (maskedValues d tm)) (npMean (maskedValues d bm)) := by
  unfold classify_target specDecision
  rcases le_or_lt (npMean (maskedValues d bm)) 0 with h | h
  · simp [not_lt.mpr h, h,
      MIN_CONTRAST, DRONE_DOLP_HIGH, DRONE_DOLP_MED, AMBIGUOUS_DOLP, BIRD_DOLP_MED]
  · simp [not_le.mpr h, h,
      MIN_CONTRAST, DRONE_DOLP_HIGH, DRONE_DOLP_MED, AMBIGUOUS_DOLP, BIRD_DOLP_MED]

/-- Concrete DoLP map used to probe the `mean_target = 0.10` boundary: the
target pixel reads exactly `0.10`, the background pixel `0.01`. -/
def boundaryMap : List ℚ := [10 / 100, 1 / 100]

/-- Target mask selecting the first pixel of `boundaryMap`. -/
def boundaryTargetMask : List Bool := [true, false]

/-- Background mask selecting the second pixel of `boundaryMap`. -/
def boundaryBackgroundMask : List Bool := [false, true]

/-- The boundary map selects target mean exactly `0.10`. -/
lemma boundary_target_mean :
    npMean (maskedValues boundaryMap boundaryTargetMask) = 10 / 100 := by
  simp [npMean, maskedValues, boundaryMap, boundaryTargetMask]

/-- Full evaluation of `classify_target` on the boundary map: the contrast
quotient is `10` and the `mean_target > 0.10` test fails, so the MEDIUM
branch fires. -/
lemma classify_target_boundary_eval :
    classify_target boundaryMap boundaryTargetMask boundaryBackgroundMask =
      ⟨.DRONE, .MEDIUM, .CONFIRM, 10 / 100, 1 / 100, 10⟩ := by
  simp [classify_target, npMean, maskedValues, boundaryMap, boundaryTargetMask,
    boundaryBackgroundMask, MIN_CONTRAST, DRONE_DOLP_HIGH, DRONE_DOLP_MED]
  norm_num

/-- C2 counterexample: on a map whose target mean is exactly `0.10` and whose
contrast quotient is `10 ≥ 2`, `classify_target` does not return HIGH
confidence (the strict test `mean_target > 0.10` fails and control falls to
the `≥ 0.08` branch), so the claimed DRONE/HIGH/CONFIRM output is wrong. -/
theorem classify_target_high_boundary_cex :
    npMean (maskedValues boundaryMap boundaryTargetMask) = 10 / 100 ∧
    (classify_target boundaryMap boundaryTargetMask boundaryBackgroundMask).contrast ≥ 2 ∧
    ¬((classify_target boundaryMap boundaryTargetMask boundaryBackgroundMask).classification
          = .DRONE ∧
      (classify_target boundaryMap boundaryTargetMask boundaryBackgroundMask).confidence
          = .HIGH ∧
      (classify_target boundaryMap boundaryTargetMask boundaryBackgroundMask).veto_decision
          = .CONFIRM) := by
  refine ⟨boundary_target_mean, ?_, ?_⟩
  · rw [classify_target_boundary_eval]
    norm_num
  · rw [classify_target_boundary_eval]
    simp

/-- C2 (amended): whenever the computed contrast quotient is at least `2.0`
and the target-region mean is exactly `0.10`, `classify_target` returns
DRONE with MEDIUM confidence and veto CONFIRM (the `> 0.10` branch does not
fire; the `≥ 0.08` branch does). -/
theorem classify_target_high_boundary (d : List ℚ) (tm bm : List Bool)
    (h2 : (classify_target d tm bm).contrast ≥ 2)
    (hm : npMean (maskedValues d tm) = 10 / 100) :
    (classify_target d tm bm).classification = .DRONE ∧
    (classify_target d tm bm).confidence = .MEDIUM ∧
    (classify_target d tm bm).veto_decision = .CONFIRM := by
  rw [classify_target_eq_spec] at h2 ⊢
  rw [hm] at h2 ⊢
  unfold specDecision at h2 ⊢
  by_cases hb : npMean (maskedValues d bm) ≤ 0
  · simp only [hb, if_true, if_pos] at h2
    norm_num at h2
  · simp only [hb, if_false, if_neg] at h2 ⊢
    norm_num at h2 ⊢
    by_cases hcr : 1 / 10 / npMean (maskedValues d bm) < 2
    · rw [if_pos hcr] at h2
      simp only at h2
      exact absurd hcr (not_lt.mpr h2)
    · rw [if_neg hcr]
      exact ⟨rfl, rfl, rfl⟩

/-- Closed witness for the amended C2 theorem at the concrete boundary map. -/
theorem classify_target_high_boundary_witness :
    ((classify_target boundaryMap boundaryTargetMask boundaryBackgroundMask).contrast ≥ 2 ∧
      npMean (maskedValues boundaryMap boundaryTargetMask) = 10 / 100) ∧
    ((classify_target boundaryMap boundaryTargetMask boundaryBackgroundMask).classification
        = .DRONE ∧
      (classify_target boundaryMap boundaryTargetMask boundaryBackgroundMask).confidence
        = .MEDIUM ∧
      (classify_target boundaryMap boundaryTargetMask boundaryBackgroundMask).veto_decision
        = .CONFIRM) :=
  ⟨⟨by rw [classify_target_boundary_eval]; norm_num, boundary_target_mean⟩,
    classify_target_high_boundary boundaryMap boundaryTargetMask boundaryBackgroundMask
      (by rw [classify_target_boundary_eval]; norm_num) boundary_target_mean⟩

/-- C4: on every input, `classify_target` computes the contrast quotient
`mean_target / mean_background` (taken as `0` when `mean_background ≤ 0`) and
evaluates the six branches with thresholds `2.0`, `0.10` (strict), `0.08`,
`0.05`, `0.03` in exactly the order and with exactly the outputs the spec
lists: the source function coincides with the decision tree transcribed from
the spec text. -/
theorem classify_target_matches_spec_tree (d : List ℚ) (tm bm : List Bool) :
    classify_target d tm bm =
      specDecision (npMean (maskedValues d tm)) (npMean (maskedValues d bm)) :=
  classify_target_eq_spec d tm bm

/-- C6: when the background mean is zero the division is never taken: the
reported contrast is `0`, which falls into the first branch, giving
UNKNOWN / LOW / INSUFFICIENT_CONTRAST. -/
theorem classify_target_zero_background (d : List ℚ) (tm bm : List Bool)
    (h : npMean (maskedValues d bm) = 0) :
    (classify_target d tm bm).contrast = 0 ∧
    (classify_target d tm bm).classification = .UNKNOWN ∧
    (classify_target d tm bm).confidence = .LOW ∧
    (classify_target d tm bm).veto_decision = .INSUFFICIENT_CONTRAST := by
  rw [classify_target_eq_spec, h]
  unfold specDecision
  norm_num

/-- Map whose background selection has mean exactly zero. -/
def zeroBackgroundMap : List ℚ := [1 / 2, 0]

/-- The zero-background map indeed has background mean `0`. -/
lemma zero_background_mean :
    npMean (maskedValues zeroBackgroundMap boundaryBackgroundMask) = 0 := by
  simp [npMean, maskedValues, zeroBackgroundMap, boundaryBackgroundMask]

/-- Closed witness for the zero-background theorem. -/
theorem classify_target_zero_background_witness :
    npMean (maskedValues zeroBackgroundMap boundaryBackgroundMask) = 0 ∧
    ((classify_target zeroBackgroundMap boundaryTargetMask boundaryBackgroundMask).contrast
        = 0 ∧
      (classify_target zeroBackgroundMap boundaryTargetMask
          boundaryBackgroundMask).classification = .UNKNOWN ∧
      (classify_target zeroBackgroundMap boundaryTargetMask
          boundaryBackgroundMask).confidence = .LOW ∧
      (classify_target zeroBackgroundMap boundaryTargetMask
          boundaryBackgroundMask).veto_decision = .INSUFFICIENT_CONTRAST) :=
  ⟨zero_background_mean,
    classify_target_zero_background zeroBackgroundMap boundaryTargetMask
      boundaryBackgroundMask zero_background_mean⟩

/-- C9: on every input the label/confidence/veto triple is one of exactly six
values, and the label determines the veto: DRONE iff CONFIRM, BIRD iff
REJECT, UNKNOWN iff (REQUIRE_FUSION or INSUFFICIENT_CONTRAST), and UNKNOWN
always comes with LOW confidence. -/
theorem classify_target_triple_invariant (d : List ℚ) (tm bm : List Bool) :
    (((classify_target d tm bm).classification,
      (classify_target d tm bm).confidence,
      (classify_target d tm bm).veto_decision)
        = (.UNKNOWN, .LOW, .INSUFFICIENT_CONTRAST) ∨
      ((classify_target d tm bm).classification,
        (classify_target d tm bm).confidence,
        (classify_target d tm bm).veto_decision) = (.DRONE, .HIGH, .CONFIRM) ∨
      ((classify_target d tm bm).classification,
        (classify_target d tm bm).confidence,
        (classify_target d tm bm).veto_decision) = (.DRONE, .MEDIUM, .CONFIRM) ∨
      ((classify_target d tm bm).classification,
        (classify_target d tm bm).confidence,
        (classify_target d tm bm).veto_decision) = (.UNKNOWN, .LOW, .REQUIRE_FUSION) ∨
      ((classify_target d tm bm).classification,
        (classify_target d tm bm).confidence,
        (classify_target d tm bm).veto_decision) = (.BIRD, .MEDIUM, .REJECT) ∨
      ((classify_target d tm bm).classification,
        (classify_target d tm bm).confidence,
        (classify_target d tm bm).veto_decision) = (.BIRD, .HIGH, .REJECT)) ∧
    ((classify_target d tm bm).classification = .DRONE ↔
      (classify_target d tm bm).veto_decision = .CONFIRM) ∧
    ((classify_target d tm bm).classification = .BIRD ↔
      (classify_target d tm bm).veto_decision = .REJECT) ∧
    ((classify_target d tm bm).classification = .UNKNOWN ↔
      ((classify_target d tm bm).veto_decision = .REQUIRE_FUSION ∨
        (classify_target d tm bm).veto_decision = .INSUFFICIENT_CONTRAST)) ∧
    ((classify_target d tm bm).classification = .UNKNOWN →
      (classify_target d tm bm).confidence = .LOW) := by
  unfold classify_target
  dsimp only
  split_ifs <;> simp

/-! ## ROIGate: roi_gating.py, extract_roi (output shape) -/

/-- Length of the Python slice `xs[a:b]` (step 1) over a sequence of length
`len`: negative endpoints count from the end, then both are clamped into
`[0, len]`. -/
def pySliceLen (len : ℕ) (a b : ℤ) : ℕ :=
  let a2 : ℤ := if a < 0 then max 0 ((len : ℤ) + a) else min a (len : ℤ)
  let b2 : ℤ := if b < 0 then max 0 ((len : ℤ) + b) else min b (len : ℤ)
  (b2 - a2).toNat

/-- Shape `(rows, cols)` of the array returned by `extract_roi` (lines
104-143): naive bounds `center ± roi_size // 2`, clamp to the image, slice,
and, when any naive bound fell outside the image, pad by
`abs(min(0, low))` and `max(0, high - extent)` on each axis.  The channel
axis of a 3-D input is passed through unchanged and is not modelled. -/
def roiShape (height width : ℕ) (roi_center_x roi_center_y : ℤ) (roi_size : ℕ) :
    ℕ × ℕ :=
  let half_size : ℤ := (roi_size / 2 : ℕ)
  let x_min := roi_center_x - half_size
  let x_max := roi_center_x + half_size
  let y_min := roi_center_y - half_size
  let y_max := roi_center_y + half_size
  let padding_applied :=
    x_min < 0 ∨ x_max > (width : ℤ) ∨ y_min < 0 ∨ y_max > (height : ℤ)
  let x_min_clamped := max 0 x_min
  let x_max_clamped := min (width : ℤ) x_max
  let y_min_clamped := max 0 y_min
  let y_max_clamped := min (height : ℤ) y_max
  let cropH := pySliceLen height y_min_clamped y_max_clamped
  let cropW := pySliceLen width x_min_clamped x_max_clamped
  if padding_applied then
    (cropH + (min 0 y_min).natAbs + (max 0 (y_max - (height : ℤ))).toNat,
      cropW + (min 0 x_min).natAbs + (max 0 (x_max - (width : ℤ))).toNat)
  else
    (cropH, cropW)

/-- C1 failing input: on a 10 x 10 image, requesting a 256 x 256 ROI centred
at pixel (2000, 2000) — a centre far outside the image — yields an array of
shape 2118 x 2118, not 256 x 256: the valid sub-crop is empty while the
right/bottom pad amounts are `x_max - width = 2118`, so the padding does not
reconstruct the requested size.  This contradicts the function's stated
purpose of returning a fixed-size crop for any centre. -/
theorem roiShape_far_outside_center :
    roiShape 10 10 2000 2000 256 = (2118, 2118) ∧ (2118, 2118) ≠ (256, 256) := by
  constructor
  · decide
  · decide

/-! ## SlewToCueController: slew_to_cue.py (geometry over exact reals) -/

open Real

noncomputable section

/-- Degrees to radians, `np.radians`. -/
def radians (x : ℝ) : ℝ := x * π / 180

/-- Radians to degrees, `np.degrees`. -/
def degrees (x : ℝ) : ℝ := x * 180 / π

/-- WGS-84 equatorial radius in metres, as set in `__init__`. -/
def R_EARTH : ℝ := 6378137

/-- Two-argument arctangent: `np.arctan2 y x` is the argument of the complex
number `x + y i`, with value in `(-pi, pi]`. -/
def atan2 (y x : ℝ) : ℝ := Complex.arg ⟨x, y⟩

/-- Shallow embedding of `enu_to_aer` (lines 104-135): slant range, azimuth
from `arctan2(east, north)` in degrees shifted by 360 when negative, and
elevation from `arctan2(up, horizontal_range)` in degrees.  Returns
`(azimuth_deg, elevation_deg, range_m)`. -/
def enu_to_aer (east_m north_m up_m : ℝ) : ℝ × ℝ × ℝ :=
  let range_m := Real.sqrt (east_m ^ 2 + north_m ^ 2 + up_m ^ 2)
  let azimuth_raw := degrees (atan2 east_m north_m)
  let azimuth_deg := if azimuth_raw < 0 then azimuth_raw + 360 else azimuth_raw
  let horizontal_range := Real.sqrt (east_m ^ 2 + north_m ^ 2)
  let elevation_deg := degrees (atan2 up_m horizontal_range)
  (azimuth_deg, elevation_deg, range_m)

/-- Shallow embedding of `geodetic_to_enu` (lines 68-102): flat-Earth
East/North/Up offsets of the target relative to the turret. -/
def geodetic_to_enu (turret_lat turret_lon turret_alt_m
    target_lat target_lon target_alt_m : ℝ) : ℝ × ℝ × ℝ :=
  let lat1 := radians turret_lat
  let lon1 := radians turret_lon
  let lat2 := radians target_lat
  let lon2 := radians target_lon
  let east_m := R_EARTH * Real.cos lat1 * (lon2 - lon1)
  let north_m := R_EARTH * (lat2 - lat1)
  let up_m := target_alt_m - turret_alt_m
  (east_m, north_m, up_m)

/-- Shallow embedding of `geodetic_to_aer` (lines 137-151): compose the two
transforms. -/
def geodetic_to_aer (turret_lat turret_lon turret_alt_m
    target_lat target_lon target_alt_m : ℝ) : ℝ × ℝ × ℝ :=
  let enu := geodetic_to_enu turret_lat turret_lon turret_alt_m
    target_lat target_lon target_alt_m
  enu_to_aer enu.1 enu.2.1 enu.2.2

/-- Shallow embedding of `calculate_angular_uncertainty` (lines 174-191):
the function divides and takes `arctan` with no guard on the sign of the
range, so it is total — there is no error path. -/
def calculate_angular_uncertainty (range_m range_uncertainty_m : ℝ) : ℝ :=
  degrees (Real.arctan (range_uncertainty_m / range_m))

/-- C3 failing input: at range `-10` m (uncertainty `10` m) the code raises
nothing and silently returns the finite angle `-45` degrees, contradicting
the requirement that non-positive ranges produce an explicit error. -/
theorem calculate_angular_uncertainty_no_error_on_negative_range :
    calculate_angular_uncertainty (-10) 10 = -45 := by
  unfold calculate_angular_uncertainty degrees
  have h1 : (10 : ℝ) / (-10) = -1 := by norm_num
  rw [h1]
  have h2 : Real.arctan (-1) = -(π / 4) := by
    rw [show (-1 : ℝ) = -(1 : ℝ) from rfl, Real.arctan_neg, Real.arctan_one]
  rw [h2]
  have hπ : π ≠ 0 := Real.pi_ne_zero
  field_simp
  ring

/-- C7: for every East/North/Up input, `enu_to_aer` returns an azimuth in
`[0, 360)` and an elevation in `[-90, 90]`: the raw `arctan2` azimuth lies in
`(-180, 180]` and the shift-by-360 of a negative value lands in `(180, 360)`,
while the elevation argument has nonnegative real part, so its angle lies in
`[-90, 90]`. -/
theorem enu_to_aer_normalized (e n u : ℝ) :
    0 ≤ (enu_to_aer e n u).1 ∧ (enu_to_aer e n u).1 < 360 ∧
    -90 ≤ (enu_to_aer e n u).2.1 ∧ (enu_to_aer e n u).2.1 ≤ 90 := by
  have hπ : (0 : ℝ) < π := Real.pi_pos
  unfold enu_to_aer atan2 degrees
  dsimp only
  have h1 : -π < Complex.arg ⟨n, e⟩ := Complex.neg_pi_lt_arg _
  have h2 : Complex.arg ⟨n, e⟩ ≤ π := Complex.arg_le_pi _
  have hhigh : Complex.arg ⟨n, e⟩ * 180 / π ≤ 180 := by
    rw [div_le_iff₀ hπ]
    nlinarith
  have hlow : -180 < Complex.arg ⟨n, e⟩ * 180 / π := by
    rw [lt_div_iff₀ hπ]
    nlinarith
  have hre : (0 : ℝ) ≤ Real.sqrt (e ^ 2 + n ^ 2) := Real.sqrt_nonneg _
  have habs : |Complex.arg ⟨Real.sqrt (e ^ 2 + n ^ 2), u⟩| ≤ π / 2 :=
    Complex.abs_arg_le_pi_div_two_iff.mpr hre
  have hb1 : -(π / 2) ≤ Complex.arg ⟨Real.sqrt (e ^ 2 + n ^ 2), u⟩ := (abs_le.mp habs).1
  have hb2 : Complex.arg ⟨Real.sqrt (e ^ 2 + n ^ 2), u⟩ ≤ π / 2 := (abs_le.mp habs).2
  have he1 : -90 ≤ Complex.arg ⟨Real.sqrt (e ^ 2 + n ^ 2), u⟩ * 180 / π := by
    rw [le_div_iff₀ hπ]
    nlinarith
  have he2 : Complex.arg ⟨Real.sqrt (e ^ 2 + n ^ 2), u⟩ * 180 / π ≤ 90 := by
    rw [div_le_iff₀ hπ]
    nlinarith
  refine ⟨?_, ?_, he1, he2⟩
  · split_ifs with h
    · linarith
    · linarith [not_lt.mp h]
  · split_ifs with h
    · linarith
    · linarith

/-- The argument of the complex number with both parts zero is zero, the
convention `arctan2(0, 0) = 0` of numpy. -/
lemma arg_zero_mk : Complex.arg ⟨0, 0⟩ = 0 := by
  have h : (⟨0, 0⟩ : ℂ) = 0 := by
    apply Complex.ext <;> simp
  rw [h, Complex.arg_zero]

/-- C8: when the target coincides with the turret origin, every ENU offset is
zero and `geodetic_to_aer` returns range 0, azimuth 0 and elevation 0; the
embedding is a total function, so no error is raised on this input. -/
theorem geodetic_to_aer_degenerate (lat lon alt : ℝ) :
    geodetic_to_aer lat lon alt lat lon alt = (0, 0, 0) := by
  unfold geodetic_to_aer geodetic_to_enu enu_to_aer atan2 degrees radians
  norm_num [arg_zero_mk]

/-- Python float modulus `x % 360`, which lands in `[0, 360)`. -/
def wrap360 (x : ℝ) : ℝ := x - 360 * (Int.floor (x / 360) : ℝ)

/-- Numpy `clip(x, lo, hi)`. -/
def npClip (x lo hi : ℝ) : ℝ := min hi (max lo x)

/-- Sample `i` of `np.linspace(0, 4 pi, 20)` used by the spiral generator. -/
def thetaSpiral (i : ℕ) : ℝ := 4 * π * i / 19

/-- Archimedean spiral radius `r = search_radius * theta / (4 pi)` at sample
`i` (line 216). -/
def rSpiral (search_radius_deg : ℝ) (i : ℕ) : ℝ :=
  search_radius_deg * thetaSpiral i / (4 * π)

/-- Spiral sample `i` of `generate_spiral_search_pattern` (lines 218-233):
polar offset from the centre, tilt clipped to `[-90, 90]`, pan wrapped into
`[0, 360)`. -/
def spiralPoint (center_pan_deg center_tilt_deg search_radius_deg : ℝ) (i : ℕ) :
    ℝ × ℝ :=
  let d_pan := rSpiral search_radius_deg i * Real.cos (thetaSpiral i)
  let d_tilt := rSpiral search_radius_deg i * Real.sin (thetaSpiral i)
  (wrap360 (center_pan_deg + d_pan), npClip (center_tilt_deg + d_tilt) (-90) 90)

/-- Shallow embedding of `generate_spiral_search_pattern` (lines 193-235)
with the default sample count `num_points = 20`, the value used by every
caller in the source: the unmodified centre followed by the 20 spiral
samples. -/
def generate_spiral_search_pattern (center_pan_deg center_tilt_deg
    search_radius_deg : ℝ) : List (ℝ × ℝ) :=
  (center_pan_deg, center_tilt_deg) ::
    List.ofFn (fun i : Fin 20 => spiralPoint center_pan_deg center_tilt_deg
      search_radius_deg i)

/-- Python float modulus by 360 is nonnegative. -/
lemma wrap360_nonneg (x : ℝ) : 0 ≤ wrap360 x := by
  unfold wrap360
  have h1 : ((Int.floor (x / 360) : ℤ) : ℝ) ≤ x / 360 := Int.floor_le _
  have h2 : ((Int.floor (x / 360) : ℤ) : ℝ) * 360 ≤ x / 360 * 360 :=
    mul_le_mul_of_nonneg_right h1 (by norm_num)
  have h3 : x / 360 * 360 = x := div_mul_cancel₀ x (by norm_num)
  linarith

/-- Python float modulus by 360 is below 360. -/
lemma wrap360_lt_360 (x : ℝ) : wrap360 x < 360 := by
  unfold wrap360
  have h1 : x / 360 < (Int.floor (x / 360) : ℝ) + 1 := Int.lt_floor_add_one _
  have h2 : x / 360 * 360 < ((Int.floor (x / 360) : ℝ) + 1) * 360 := by
    apply mul_lt_mul_of_pos_right h1 (by norm_num)
  have h3 : x / 360 * 360 = x := div_mul_cancel₀ x (by norm_num)
  nlinarith

/-- The spiral radius at sample `i` simplifies to `radius * i / 19`: the
`4 pi` of the linspace cancels against the spiral denominator. -/
lemma rSpiral_eq (s : ℝ) (i : ℕ) : rSpiral s i = s * i / 19 := by
  unfold rSpiral thetaSpiral
  have hπ : π ≠ 0 := Real.pi_ne_zero
  field_simp
  ring

/-- Conjunction of the properties claimed of a generated spiral pattern: it
starts with the unmodified centre, has 21 entries, its tail consists of the
20 spiral samples, the sampled angle spans 0 to `4 pi`, and the spiral radii
are monotone and bounded by the requested radius. -/
def SpiralPatternStatement (cp ct s : ℝ) : Prop :=
  (generate_spiral_search_pattern cp ct s).head? = some (cp, ct) ∧
  (generate_spiral_search_pattern cp ct s).length = 21 ∧
  (generate_spiral_search_pattern cp ct s).tail =
    List.ofFn (fun i : Fin 20 => spiralPoint cp ct s i) ∧
  thetaSpiral 0 = 0 ∧
  thetaSpiral 19 = 4 * π ∧
  (∀ i j : ℕ, i ≤ j → rSpiral s i ≤ rSpiral s j) ∧
  (∀ i : ℕ, i ≤ 19 → rSpiral s i ≤ s)

/-- C5: for every centre and nonnegative search radius, the generated pattern
starts at the requested centre, is followed by exactly 20 samples of the
Archimedean spiral `r = radius * theta / (4 pi)` with `theta` spanning 0 to
`4 pi`, and the spiral radii are non-decreasing and never exceed the
requested radius. -/
theorem generate_spiral_search_pattern_spec (cp ct s : ℝ) (hs : 0 ≤ s) :
    SpiralPatternStatement cp ct s := by
  refine ⟨rfl, by simp [generate_spiral_search_pattern], rfl,
    by simp [thetaSpiral], by unfold thetaSpiral; norm_num, ?_, ?_⟩
  · intro i j hij
    rw [rSpiral_eq, rSpiral_eq]
    have h : (i : ℝ) ≤ (j : ℝ) := Nat.cast_le.mpr hij
    gcongr
  · intro i hi
    rw [rSpiral_eq]
    have h1 : (i : ℝ) ≤ 19 := by exact_mod_cast hi
    nlinarith

/-- Closed witness for the spiral-pattern theorem at centre (0, 0) and
radius 2. -/
theorem generate_spiral_search_pattern_spec_witness :
    (0 : ℝ) ≤ 2 ∧ SpiralPatternStatement 0 0 2 :=
  ⟨zero_le_two, generate_spiral_search_pattern_spec 0 0 2 zero_le_two⟩

/-- C10: every point after the first of any generated pattern has pan in
`[0, 360)` and tilt in `[-90, 90]`, while the first point is the centre
returned unmodified — witnessed by the centre (400, 100), whose pan 400 and
tilt 100 violate both ranges while all later points satisfy them. -/
theorem spiral_pattern_tail_ranges :
    (∀ cp ct s : ℝ, ∀ p ∈ (generate_spiral_search_pattern cp ct s).tail,
        0 ≤ p.1 ∧ p.1 < 360 ∧ -90 ≤ p.2 ∧ p.2 ≤ 90) ∧
    (generate_spiral_search_pattern 400 100 2).head? = some (400, 100) ∧
    ¬((400 : ℝ) < 360) ∧ ¬((100 : ℝ) ≤ 90) := by
  refine ⟨?_, rfl, by norm_num, by norm_num⟩
  intro cp ct s p hp
  simp only [generate_spiral_search_pattern, List.tail_cons, List.mem_ofFn] at hp
  obtain ⟨i, hi⟩ := hp
  subst hi
  unfold spiralPoint
  refine ⟨wrap360_nonneg _, wrap360_lt_360 _, ?_, ?_⟩
  · exact le_min (by norm_num) (le_max_left _ _)
  · exact min_le_left _ _

end

end SensorSim
